import Mathlib

/-!
Verification of the MocTestServer scenario engine
(`server/scenarios/{base,normal,drift,sine,errors,realworld}.py` and
`server/scenarios/__init__.py`).

Modelling conventions:
* Python `float` values are modelled as `ℚ`.  Every numeric literal of the
  source is exactly representable.
* Python's builtin `round(x, 1)` (round-half-to-even on the first decimal)
  is modelled by `py_round1`.
* Statuses are the literal strings `"normal"`, `"warning"`, `"alarm"`,
  `"offline"` exactly as in the source.
* Calls to `random.uniform`, `random.random` and `random.randint` are
  modelled as explicit oracle arguments of `get_value` (one argument per
  RNG call, in source order); `math.sin` values and the wall-clock hour of
  `DailyCycleScenario` are likewise oracle arguments, since they are
  external inputs of the computation.
* The `limits` dict is a record of `Option ℚ` fields; a `none` field is a
  missing dict key, and `Option.getD` models `dict.get(key, default)`.
* Mutable scenario objects (`self`) are modelled by passing the scenario
  record in and returning the updated record next to the `SensorValue`.
-/

/-- `SensorValue` dataclass of `scenarios/base.py` (field `modbus_error`
uses Python's `None` ↦ `none`). -/
structure SensorValue where
  temperature : ℚ
  humidity : ℚ
  temp_status : String := "normal"
  hum_status : String := "normal"
  combined_status : String := "normal"
  modbus_error : Option String := none
deriving DecidableEq, Repr

/-- The `limits` dictionary passed to `get_value`; a `none` field models a
missing key. -/
structure Limits where
  temp_min : Option ℚ := none
  temp_max : Option ℚ := none
  temp_warning_delta : Option ℚ := none
  temp_alarm_delta : Option ℚ := none
  hum_min : Option ℚ := none
  hum_max : Option ℚ := none
  hum_warning_delta : Option ℚ := none
  hum_alarm_delta : Option ℚ := none
deriving DecidableEq, Repr

/-- `BaseScenario.__init__` construction parameters (defaults from
`scenarios/base.py`). -/
structure BaseScenario where
  temp_base : ℚ := 22.0
  temp_variation : ℚ := 2.0
  temp_min : ℚ := -40.0
  temp_max : ℚ := 85.0
  hum_base : ℚ := 45.0
  hum_variation : ℚ := 5.0
  hum_min : ℚ := 0.0
  hum_max : ℚ := 100.0
  offline_sensors : List ℤ := []
deriving DecidableEq, Repr

/-- `BaseScenario._clamp`: `max(min_val, min(max_val, value))`. -/
def clamp (value min_val max_val : ℚ) : ℚ :=
  max min_val (min max_val value)

/-- `BaseScenario._calculate_status` from `scenarios/base.py`, translated
branch for branch. -/
def calculate_status (value limit_min limit_max warning_delta alarm_delta : ℚ) :
    String :=
  if value < limit_min - alarm_delta ∨ value > limit_max + alarm_delta then
    "alarm"
  else if value < limit_min - warning_delta ∨ value > limit_max + warning_delta then
    "warning"
  else if value < limit_min ∨ value > limit_max then
    "warning"
  else
    "normal"

/-- `BaseScenario._get_combined_status` from `scenarios/base.py`. -/
def get_combined_status (temp_status hum_status : String) : String :=
  if temp_status = "alarm" ∨ hum_status = "alarm" then "alarm"
  else if temp_status = "warning" ∨ hum_status = "warning" then "warning"
  else "normal"

/-- Round-half-to-even to the nearest integer, the rounding used by
Python's builtin `round`. -/
def round_half_even (q : ℚ) : ℤ :=
  let n := ⌊q⌋
  let r := q - n
  if r < 1/2 then n
  else if 1/2 < r then n + 1
  else if n % 2 = 0 then n else n + 1

/-- Python's `round(x, 1)`: round-half-to-even on the first decimal. -/
def py_round1 (q : ℚ) : ℚ :=
  (round_half_even (10 * q) : ℚ) / 10

/-- Temperature classification exactly as every scenario invokes it:
`_calculate_status(v, limits.get('temp_min', -10), limits.get('temp_max', 40),
limits.get('temp_warning_delta', 3), limits.get('temp_alarm_delta', 5))`. -/
def Limits.tempStatus (limits : Limits) (v : ℚ) : String :=
  calculate_status v (limits.temp_min.getD (-10)) (limits.temp_max.getD 40)
    (limits.temp_warning_delta.getD 3) (limits.temp_alarm_delta.getD 5)

/-- Humidity classification exactly as every scenario invokes it:
`_calculate_status(v, limits.get('hum_min', 20), limits.get('hum_max', 80),
limits.get('hum_warning_delta', 5), limits.get('hum_alarm_delta', 10))`. -/
def Limits.humStatus (limits : Limits) (v : ℚ) : String :=
  calculate_status v (limits.hum_min.getD 20) (limits.hum_max.getD 80)
    (limits.hum_warning_delta.getD 5) (limits.hum_alarm_delta.getD 10)

/-- The offline `SensorValue` literal that the fault scenarios build:
`SensorValue(temperature=0.0, humidity=0.0, temp_status="offline",
hum_status="offline", combined_status="offline", modbus_error=err)`. -/
def offlineValue (err : String) : SensorValue :=
  { temperature := 0.0, humidity := 0.0, temp_status := "offline",
    hum_status := "offline", combined_status := "offline",
    modbus_error := some err }

/-- `NormalScenario` of `scenarios/normal.py` (no extra construction
parameters). -/
structure NormalScenario extends BaseScenario
deriving DecidableEq, Repr

/-- `NormalScenario.get_value`.  `dt`, `dh` are the two
`random.uniform(-variation, variation)` draws, in source order. -/
def NormalScenario.get_value (self : NormalScenario) (sensor_id : ℤ)
    (limits : Limits) (dt dh : ℚ) : SensorValue :=
  let sensor_offset : ℚ := ((sensor_id : ℚ) - 1) * 0.3
  let temp0 := self.temp_base + sensor_offset + dt
  let hum0 := self.hum_base + dh
  let temp := py_round1 (clamp temp0 self.temp_min self.temp_max)
  let hum := py_round1 (clamp hum0 self.hum_min self.hum_max)
  let temp_status := limits.tempStatus temp
  let hum_status := limits.humStatus hum
  { temperature := temp, humidity := hum, temp_status := temp_status,
    hum_status := hum_status,
    combined_status := get_combined_status temp_status hum_status }

/-- `DriftUpScenario` of `scenarios/drift.py`; `current_offset` is the
mutable `self._current_offset` (0.0 at construction). -/
structure DriftUpScenario extends BaseScenario where
  drift_rate : ℚ := 0.1
  current_offset : ℚ := 0.0
deriving DecidableEq, Repr

/-- `DriftUpScenario.get_value`; `dt`, `dh` are the two uniform noise
draws.  Returns the produced value and the updated scenario object. -/
def DriftUpScenario.get_value (self : DriftUpScenario) (sensor_id : ℤ)
    (limits : Limits) (dt dh : ℚ) : SensorValue × DriftUpScenario :=
  let sensor_offset : ℚ := ((sensor_id : ℚ) - 1) * 0.3
  let current_offset := self.current_offset + self.drift_rate
  let temp0 := self.temp_base + sensor_offset + current_offset + dt
  let hum0 := self.hum_base - current_offset * 0.5 + dh
  let temp := py_round1 (clamp temp0 self.temp_min self.temp_max)
  let hum := py_round1 (clamp hum0 self.hum_min self.hum_max)
  let temp_status := limits.tempStatus temp
  let hum_status := limits.humStatus hum
  ({ temperature := temp, humidity := hum, temp_status := temp_status,
     hum_status := hum_status,
     combined_status := get_combined_status temp_status hum_status },
   { self with current_offset := current_offset })

/-- `DriftDownScenario` of `scenarios/drift.py`. -/
structure DriftDownScenario extends BaseScenario where
  drift_rate : ℚ := 0.1
  current_offset : ℚ := 0.0
deriving DecidableEq, Repr

/-- `DriftDownScenario.get_value`. -/
def DriftDownScenario.get_value (self : DriftDownScenario) (sensor_id : ℤ)
    (limits : Limits) (dt dh : ℚ) : SensorValue × DriftDownScenario :=
  let sensor_offset : ℚ := ((sensor_id : ℚ) - 1) * 0.3
  let current_offset := self.current_offset - self.drift_rate
  let temp0 := self.temp_base + sensor_offset + current_offset + dt
  let hum0 := self.hum_base - current_offset * 0.5 + dh
  let temp := py_round1 (clamp temp0 self.temp_min self.temp_max)
  let hum := py_round1 (clamp hum0 self.hum_min self.hum_max)
  let temp_status := limits.tempStatus temp
  let hum_status := limits.humStatus hum
  ({ temperature := temp, humidity := hum, temp_status := temp_status,
     hum_status := hum_status,
     combined_status := get_combined_status temp_status hum_status },
   { self with current_offset := current_offset })

/-- `SineScenario` of `scenarios/sine.py`; `iteration` is the inherited
mutable `self._iteration` counter (0 at construction). -/
structure SineScenario extends BaseScenario where
  period : ℤ := 60
  amplitude : ℚ := 5.0
  iteration : ℤ := 0
deriving DecidableEq, Repr

/-- `SineScenario.get_value`.  `sv` is the (real-valued, external)
`math.sin(2π·iteration/period + phase_shift)` factor as an oracle input;
`dt`, `dh` are the uniform noise draws. -/
def SineScenario.get_value (self : SineScenario) (sensor_id : ℤ)
    (limits : Limits) (sv dt dh : ℚ) : SensorValue × SineScenario :=
  let sensor_offset : ℚ := ((sensor_id : ℚ) - 1) * 0.3
  let temp0 := self.temp_base + sensor_offset + self.amplitude * sv + dt
  let hum0 := self.hum_base - (self.amplitude * 2) * sv + dh
  let temp := py_round1 (clamp temp0 self.temp_min self.temp_max)
  let hum := py_round1 (clamp hum0 self.hum_min self.hum_max)
  let temp_status := limits.tempStatus temp
  let hum_status := limits.humStatus hum
  ({ temperature := temp, humidity := hum, temp_status := temp_status,
     hum_status := hum_status,
     combined_status := get_combined_status temp_status hum_status },
   { self with iteration := self.iteration + 1 })

/-- `OfflineScenario` of `scenarios/errors.py`. -/
structure OfflineScenario extends BaseScenario
deriving DecidableEq, Repr

/-- `OfflineScenario.get_value`: always the offline/timeout value. -/
def OfflineScenario.get_value (_self : OfflineScenario) (_sensor_id : ℤ)
    (_limits : Limits) : SensorValue :=
  offlineValue "timeout"

/-- `IntermittentScenario` of `scenarios/errors.py`. -/
structure IntermittentScenario extends BaseScenario where
  failure_rate : ℚ := 0.2
deriving DecidableEq, Repr

/-- `IntermittentScenario.get_value`.  `r` is the `random.random()` fault
draw; `dt`, `dh` the uniform noise draws. -/
def IntermittentScenario.get_value (self : IntermittentScenario)
    (sensor_id : ℤ) (limits : Limits) (r dt dh : ℚ) : SensorValue :=
  if r < self.failure_rate then
    offlineValue "timeout"
  else
    let sensor_offset : ℚ := ((sensor_id : ℚ) - 1) * 0.3
    let temp := py_round1 (clamp (self.temp_base + sensor_offset + dt)
      self.temp_min self.temp_max)
    let hum := py_round1 (clamp (self.hum_base + dh) self.hum_min self.hum_max)
    let temp_status := limits.tempStatus temp
    let hum_status := limits.humStatus hum
    { temperature := temp, humidity := hum, temp_status := temp_status,
      hum_status := hum_status,
      combined_status := get_combined_status temp_status hum_status }

/-- `TimeoutScenario` of `scenarios/errors.py`. -/
structure TimeoutScenario extends BaseScenario where
  timeout_rate : ℚ := 0.3
deriving DecidableEq, Repr

/-- `TimeoutScenario.get_value`: on the non-fault branch the statuses are
the literal strings `"normal"` — `limits` is not consulted there. -/
def TimeoutScenario.get_value (self : TimeoutScenario) (sensor_id : ℤ)
    (_limits : Limits) (r dt dh : ℚ) : SensorValue :=
  if r < self.timeout_rate then
    offlineValue "timeout"
  else
    let sensor_offset : ℚ := ((sensor_id : ℚ) - 1) * 0.3
    let temp := py_round1 (clamp (self.temp_base + sensor_offset + dt)
      self.temp_min self.temp_max)
    let hum := py_round1 (clamp (self.hum_base + dh) self.hum_min self.hum_max)
    { temperature := temp, humidity := hum, temp_status := "normal",
      hum_status := "normal", combined_status := "normal" }

/-- `CRCErrorScenario` of `scenarios/errors.py`. -/
structure CRCErrorScenario extends BaseScenario where
  crc_error_rate : ℚ := 0.15
deriving DecidableEq, Repr

/-- `CRCErrorScenario.get_value`: on the non-fault branch the statuses are
the literal strings `"normal"` — `limits` is not consulted there. -/
def CRCErrorScenario.get_value (self : CRCErrorScenario) (sensor_id : ℤ)
    (_limits : Limits) (r dt dh : ℚ) : SensorValue :=
  if r < self.crc_error_rate then
    offlineValue "crc_error"
  else
    let sensor_offset : ℚ := ((sensor_id : ℚ) - 1) * 0.3
    let temp := py_round1 (clamp (self.temp_base + sensor_offset + dt)
      self.temp_min self.temp_max)
    let hum := py_round1 (clamp (self.hum_base + dh) self.hum_min self.hum_max)
    { temperature := temp, humidity := hum, temp_status := "normal",
      hum_status := "normal", combined_status := "normal" }

/-- `PartialOfflineScenario` of `scenarios/errors.py`; `offline_set` is the
mutable `self._offline_sensors`, filled once at construction. -/
structure PartialOfflineScenario extends BaseScenario where
  offline_probability : ℚ := 0.3
  offline_set : Finset ℤ := ∅
deriving DecidableEq

/-- The construction-time seeding of `PartialOfflineScenario`: for each
`i in range(1, 11)`, add `i` when `random.random() < offline_probability`;
`rs i` is the draw for sensor `i`. -/
def PartialOfflineScenario.seed_offline (offline_probability : ℚ)
    (rs : ℤ → ℚ) : Finset ℤ :=
  (Finset.Icc (1 : ℤ) 10).filter (fun i => rs i < offline_probability)

/-- `PartialOfflineScenario.get_value`. -/
def PartialOfflineScenario.get_value (self : PartialOfflineScenario)
    (sensor_id : ℤ) (limits : Limits) (dt dh : ℚ) : SensorValue :=
  if sensor_id ∈ self.offline_set ∨ sensor_id ∈ self.offline_sensors then
    offlineValue "timeout"
  else
    let sensor_offset : ℚ := ((sensor_id : ℚ) - 1) * 0.3
    let temp := py_round1 (clamp (self.temp_base + sensor_offset + dt)
      self.temp_min self.temp_max)
    let hum := py_round1 (clamp (self.hum_base + dh) self.hum_min self.hum_max)
    let temp_status := limits.tempStatus temp
    let hum_status := limits.humStatus hum
    { temperature := temp, humidity := hum, temp_status := temp_status,
      hum_status := hum_status,
      combined_status := get_combined_status temp_status hum_status }

/-- `DailyCycleScenario` of `scenarios/realworld.py`. -/
structure DailyCycleScenario extends BaseScenario where
  day_temp : ℚ := 25.0
  night_temp : ℚ := 18.0
deriving DecidableEq, Repr

/-- `DailyCycleScenario.get_value`.  `df` is the (real-valued, external)
`math.sin((hour - 8)·π/12)` daily factor as an oracle input; `dt` is the
`random.uniform(-1, 1)` draw and `dh` the humidity noise draw. -/
def DailyCycleScenario.get_value (self : DailyCycleScenario) (sensor_id : ℤ)
    (limits : Limits) (df dt dh : ℚ) : SensorValue :=
  let temp_amplitude := (self.day_temp - self.night_temp) / 2
  let temp_center := (self.day_temp + self.night_temp) / 2
  let sensor_offset : ℚ := ((sensor_id : ℚ) - 1) * 0.2
  let temp0 := temp_center + temp_amplitude * df + sensor_offset + dt
  let hum0 := self.hum_base - 10 * df + dh
  let temp := py_round1 (clamp temp0 self.temp_min self.temp_max)
  let hum := py_round1 (clamp hum0 self.hum_min self.hum_max)
  let temp_status := limits.tempStatus temp
  let hum_status := limits.humStatus hum
  { temperature := temp, humidity := hum, temp_status := temp_status,
    hum_status := hum_status,
    combined_status := get_combined_status temp_status hum_status }

/-- `HVACControlScenario` of `scenarios/realworld.py`; `hvac_on` and
`current_temp` are the mutable `self._hvac_on` / `self._current_temp`
(`current_temp` is initialised to `setpoint` by `__init__`). -/
structure HVACControlScenario extends BaseScenario where
  setpoint : ℚ := 22.0
  hysteresis : ℚ := 1.0
  hvac_on : Bool := false
  current_temp : ℚ := 22.0
deriving DecidableEq, Repr

/-- `HVACControlScenario.get_value`.  `dstep` is the temperature-change
draw (`uniform(0.1, 0.3)` when on, `uniform(0.05, 0.15)` when off — one
RNG call per tick), `dt` the `uniform(-0.3, 0.3)` draw, `dh` the scaled
humidity noise draw. -/
def HVACControlScenario.get_value (self : HVACControlScenario)
    (sensor_id : ℤ) (limits : Limits) (dstep dt dh : ℚ) :
    SensorValue × HVACControlScenario :=
  let hvac_on :=
    if self.current_temp > self.setpoint + self.hysteresis then true
    else if self.current_temp < self.setpoint - self.hysteresis then false
    else self.hvac_on
  let current_temp :=
    if hvac_on then self.current_temp - dstep else self.current_temp + dstep
  let sensor_offset : ℚ := ((sensor_id : ℚ) - 1) * 0.1
  let temp0 := current_temp + sensor_offset + dt
  let hum0 := self.hum_base + (if hvac_on then 5 else -2) + dh
  let temp := py_round1 (clamp temp0 self.temp_min self.temp_max)
  let hum := py_round1 (clamp hum0 self.hum_min self.hum_max)
  let temp_status := limits.tempStatus temp
  let hum_status := limits.humStatus hum
  ({ temperature := temp, humidity := hum, temp_status := temp_status,
     hum_status := hum_status,
     combined_status := get_combined_status temp_status hum_status },
   { self with hvac_on := hvac_on, current_temp := current_temp })

/-- `DoorOpenScenario` of `scenarios/realworld.py`; `door_open` and
`door_timer` are the mutable `self._door_open` / `self._door_timer`. -/
structure DoorOpenScenario extends BaseScenario where
  open_probability : ℚ := 0.1
  outside_temp : ℚ := 35.0
  door_open : Bool := false
  door_timer : ℤ := 0
deriving DecidableEq, Repr

/-- `DoorOpenScenario.get_value`.  `r` is the `random.random()` opening
draw, `tdraw` the `random.randint(5, 15)` duration draw, `dt`/`dh` the
value noise draws of whichever branch runs. -/
def DoorOpenScenario.get_value (self : DoorOpenScenario) (sensor_id : ℤ)
    (limits : Limits) (r : ℚ) (tdraw : ℤ) (dt dh : ℚ) :
    SensorValue × DoorOpenScenario :=
  let trig := ¬ self.door_open ∧ r < self.open_probability
  let open1 := if trig then true else self.door_open
  let timer1 := if trig then tdraw else self.door_timer
  let timer2 := if open1 then timer1 - 1 else timer1
  let open2 := if open1 ∧ timer1 - 1 ≤ 0 then false else open1
  let sensor_offset : ℚ := ((sensor_id : ℚ) - 1) * 0.3
  let temp0 :=
    if open2 then self.temp_base + (self.outside_temp - self.temp_base) * 0.3 + dt
    else self.temp_base + sensor_offset + dt
  let hum0 := self.hum_base + dh
  let temp := py_round1 (clamp temp0 self.temp_min self.temp_max)
  let hum := py_round1 (clamp hum0 self.hum_min self.hum_max)
  let temp_status := limits.tempStatus temp
  let hum_status := limits.humStatus hum
  ({ temperature := temp, humidity := hum, temp_status := temp_status,
     hum_status := hum_status,
     combined_status := get_combined_status temp_status hum_status },
   { self with door_open := open2, door_timer := timer2 })

/-- `PowerOutageScenario` of `scenarios/realworld.py`; `power_off` and
`outage_timer` are the mutable `self._power_off` / `self._outage_timer`. -/
structure PowerOutageScenario extends BaseScenario where
  outage_probability : ℚ := 0.05
  power_off : Bool := false
  outage_timer : ℤ := 0
deriving DecidableEq, Repr

/-- `PowerOutageScenario.get_value`.  `r` is the `random.random()` outage
draw, `tdraw` the `random.randint(10, 30)` duration draw, `dt`/`dh` the
noise draws of the non-fault branch.  On the non-fault branch the statuses
are the literal strings `"normal"` — `limits` is not consulted there. -/
def PowerOutageScenario.get_value (self : PowerOutageScenario)
    (sensor_id : ℤ) (_limits : Limits) (r : ℚ) (tdraw : ℤ) (dt dh : ℚ) :
    SensorValue × PowerOutageScenario :=
  let trig := ¬ self.power_off ∧ r < self.outage_probability
  let off1 := if trig then true else self.power_off
  let timer1 := if trig then tdraw else self.outage_timer
  if off1 then
    let timer2 := timer1 - 1
    let off2 := if timer2 ≤ 0 then false else off1
    (offlineValue "no_power",
     { self with power_off := off2, outage_timer := timer2 })
  else
    let sensor_offset : ℚ := ((sensor_id : ℚ) - 1) * 0.3
    let temp := py_round1 (clamp (self.temp_base + sensor_offset + dt)
      self.temp_min self.temp_max)
    let hum := py_round1 (clamp (self.hum_base + dh) self.hum_min self.hum_max)
    ({ temperature := temp, humidity := hum, temp_status := "normal",
       hum_status := "normal", combined_status := "normal" },
     { self with power_off := off1, outage_timer := timer1 })

/-- `SensorFailureScenario` of `scenarios/realworld.py`; `failed_sensors`
is the mutable, growing `self._failed_sensors` set. -/
structure SensorFailureScenario extends BaseScenario where
  failure_rate : ℚ := 0.01
  failed_sensors : Finset ℤ := ∅
deriving DecidableEq

/-- `SensorFailureScenario.get_value`.  `r1` is the failure-trigger draw,
`r2` the 50/50 offline-vs-garbage draw, `gt`/`gh` the
`uniform(-40, 85)` / `uniform(0, 100)` garbage draws, `dt`/`dh` the
noise draws of the healthy branch. -/
def SensorFailureScenario.get_value (self : SensorFailureScenario)
    (sensor_id : ℤ) (limits : Limits) (r1 r2 gt gh dt dh : ℚ) :
    SensorValue × SensorFailureScenario :=
  let failed1 :=
    if sensor_id ∉ self.failed_sensors ∧ r1 < self.failure_rate then
      insert sensor_id self.failed_sensors
    else self.failed_sensors
  let selfU := { self with failed_sensors := failed1 }
  if sensor_id ∈ failed1 then
    if r2 < 0.5 then
      (offlineValue "sensor_failure", selfU)
    else
      ({ temperature := py_round1 gt, humidity := py_round1 gh,
         temp_status := "alarm", hum_status := "alarm",
         combined_status := "alarm", modbus_error := some "invalid_data" },
       selfU)
  else
    let sensor_offset : ℚ := ((sensor_id : ℚ) - 1) * 0.3
    let temp := py_round1 (clamp (self.temp_base + sensor_offset + dt)
      self.temp_min self.temp_max)
    let hum := py_round1 (clamp (self.hum_base + dh) self.hum_min self.hum_max)
    let temp_status := limits.tempStatus temp
    let hum_status := limits.humStatus hum
    ({ temperature := temp, humidity := hum, temp_status := temp_status,
       hum_status := hum_status,
       combined_status := get_combined_status temp_status hum_status },
     selfU)

/-- The fourteen scenario classes registered in
`scenarios/__init__.py`. -/
inductive ScenarioClass where
  | NormalCls
  | DriftUpCls
  | DriftDownCls
  | SineCls
  | OfflineCls
  | IntermittentCls
  | TimeoutCls
  | CRCErrorCls
  | PartialOfflineCls
  | DailyCycleCls
  | HVACControlCls
  | DoorOpenCls
  | PowerOutageCls
  | SensorFailureCls
deriving DecidableEq, Repr

/-- The `SCENARIOS` registry dict of `scenarios/__init__.py` (keys in
source order; Python dict keys are unique, so an association list with
first-match lookup is an exact model). -/
def SCENARIOS : List (String × ScenarioClass) :=
  [("normal", .NormalCls),
   ("drift_up", .DriftUpCls),
   ("drift_down", .DriftDownCls),
   ("sine", .SineCls),
   ("offline", .OfflineCls),
   ("intermittent", .IntermittentCls),
   ("timeout", .TimeoutCls),
   ("crc_error", .CRCErrorCls),
   ("partial_offline", .PartialOfflineCls),
   ("daily_cycle", .DailyCycleCls),
   ("hvac_control", .HVACControlCls),
   ("door_open", .DoorOpenCls),
   ("power_outage", .PowerOutageCls),
   ("sensor_failure", .SensorFailureCls)]

/-- `get_scenario` of `scenarios/__init__.py`:
`SCENARIOS.get(name, NormalScenario)` — the class that is instantiated. -/
def get_scenario (name : String) : ScenarioClass :=
  (SCENARIOS.lookup name).getD .NormalCls

/-- A rational that is an integer multiple of `0.1` (one decimal place),
the granularity `py_round1` rounds to. -/
def isTenth (q : ℚ) : Prop :=
  ∃ a : ℤ, q = (a : ℚ) / 10

/-- The construction bounds of a scenario are well-formed one-decimal
bounds: each of `temp_min/temp_max/hum_min/hum_max` is a multiple of
`0.1` and the minima do not exceed the maxima (true of the source
defaults `-40/85` and `0/100`). -/
def tenthBounds (s : BaseScenario) : Prop :=
  isTenth s.temp_min ∧ isTenth s.temp_max ∧ s.temp_min ≤ s.temp_max ∧
    isTenth s.hum_min ∧ isTenth s.hum_max ∧ s.hum_min ≤ s.hum_max

/-- The clamp invariant of the spec: the produced reading lies inside the
scenario's configured operating bounds. -/
def inBand (s : BaseScenario) (v : SensorValue) : Prop :=
  s.temp_min ≤ v.temperature ∧ v.temperature ≤ s.temp_max ∧
    s.hum_min ≤ v.humidity ∧ v.humidity ≤ s.hum_max

/-- Modelled from the spec's words in §4.1 (for the refinement claim about
the classifier): `alarm` beyond the alarm deltas, else `warning` as one
flattened OR of the four out-of-band conditions, else `normal`. -/
def spec_classify (value limit_min limit_max warning_delta alarm_delta : ℚ) :
    String :=
  if value < limit_min - alarm_delta ∨ value > limit_max + alarm_delta then
    "alarm"
  else if value < limit_min - warning_delta ∨ value > limit_max + warning_delta ∨
      value < limit_min ∨ value > limit_max then
    "warning"
  else
    "normal"

/-- Modelled from the spec's words in §4.1 (for the refinement claim about
`combine`): `alarm` if either is alarm; else `warning` if either is
warning; else `normal`. -/
def spec_combine (temp_status hum_status : String) : String :=
  if temp_status = "alarm" ∨ hum_status = "alarm" then "alarm"
  else if temp_status = "warning" ∨ hum_status = "warning" then "warning"
  else "normal"

/-- Fill every missing key of a `limits` dict with its documented default,
the values every scenario passes to `dict.get`. -/
def fillLimits (l : Limits) : Limits :=
  { temp_min := some (l.temp_min.getD (-10)),
    temp_max := some (l.temp_max.getD 40),
    temp_warning_delta := some (l.temp_warning_delta.getD 3),
    temp_alarm_delta := some (l.temp_alarm_delta.getD 5),
    hum_min := some (l.hum_min.getD 20),
    hum_max := some (l.hum_max.getD 80),
    hum_warning_delta := some (l.hum_warning_delta.getD 5),
    hum_alarm_delta := some (l.hum_alarm_delta.getD 10) }

/-- The two possible outputs of `SensorFailureScenario.get_value` for a
failed sensor: the offline/`sensor_failure` reading, or alarm-status
garbage tagged `invalid_data`. -/
def isFailedOutput (v : SensorValue) : Prop :=
  v = offlineValue "sensor_failure" ∨
    (v.temp_status = "alarm" ∧ v.hum_status = "alarm" ∧
      v.combined_status = "alarm" ∧ v.modbus_error = some "invalid_data")

instance (v : SensorValue) : Decidable (isFailedOutput v) := by
  unfold isFailedOutput
  infer_instance

/-- One call to `SensorFailureScenario.get_value`: the sensor id, the
limits dict and the six oracle draws of that call. -/
structure SFCall where
  sensor_id : ℤ
  limits : Limits
  r1 : ℚ
  r2 : ℚ
  gt : ℚ
  gh : ℚ
  dt : ℚ
  dh : ℚ

/-- Run a sequence of `get_value` calls against a `SensorFailureScenario`
object, threading the mutable state; returns the outputs in call order
and the final object. -/
def SensorFailureScenario.run (self : SensorFailureScenario) :
    List SFCall → List SensorValue × SensorFailureScenario
  | [] => ([], self)
  | c :: cs =>
    let step := self.get_value c.sensor_id c.limits c.r1 c.r2 c.gt c.gh c.dt c.dh
    let rest := (step.2).run cs
    (step.1 :: rest.1, rest.2)

/-- One call to `DriftUpScenario.get_value`: the sensor id, the limits
dict and the two noise draws of that call. -/
structure DriftCall where
  sensor_id : ℤ
  limits : Limits
  dt : ℚ
  dh : ℚ

/-- Run a sequence of `get_value` calls against a `DriftUpScenario`
object, threading the mutable state; returns the final object. -/
def DriftUpScenario.run (self : DriftUpScenario) :
    List DriftCall → DriftUpScenario
  | [] => self
  | c :: cs => ((self.get_value c.sensor_id c.limits c.dt c.dh).2).run cs

/-! ## Helper lemmas -/

theorem round_half_even_le {q : ℚ} {n : ℤ} (h : q ≤ (n : ℚ)) :
    round_half_even q ≤ n := by
  have hfl : ⌊q⌋ ≤ n := by
    have := Int.floor_le_floor h
    simpa using this
  simp only [round_half_even]
  split_ifs with h1 h2 h3
  · exact hfl
  · have hlt : (⌊q⌋ : ℚ) < q := by
      have : (0 : ℚ) < q - ⌊q⌋ := lt_trans (by norm_num) h2
      linarith
    have : (⌊q⌋ : ℚ) < (n : ℚ) := lt_of_lt_of_le hlt h
    have : ⌊q⌋ < n := by exact_mod_cast this
    omega
  · exact hfl
  · have hr : (1 : ℚ)/2 ≤ q - ⌊q⌋ := le_of_not_lt h1
    have hlt : (⌊q⌋ : ℚ) < q := by linarith
    have : (⌊q⌋ : ℚ) < (n : ℚ) := lt_of_lt_of_le hlt h
    have : ⌊q⌋ < n := by exact_mod_cast this
    omega

theorem le_round_half_even {q : ℚ} {m : ℤ} (h : (m : ℚ) ≤ q) :
    m ≤ round_half_even q := by
  have hfl : m ≤ ⌊q⌋ := Int.le_floor.mpr h
  simp only [round_half_even]
  split_ifs <;> omega

theorem py_round1_le {q : ℚ} {b : ℤ} (h : q ≤ (b : ℚ) / 10) :
    py_round1 q ≤ (b : ℚ) / 10 := by
  have h10 : 10 * q ≤ (b : ℚ) := by linarith
  have hr : round_half_even (10 * q) ≤ b := round_half_even_le h10
  have hrq : ((round_half_even (10 * q) : ℤ) : ℚ) ≤ (b : ℚ) := by
    exact_mod_cast hr
  simp only [py_round1]
  linarith

theorem le_py_round1 {q : ℚ} {a : ℤ} (h : (a : ℚ) / 10 ≤ q) :
    (a : ℚ) / 10 ≤ py_round1 q := by
  have h10 : (a : ℚ) ≤ 10 * q := by linarith
  have hr : a ≤ round_half_even (10 * q) := le_round_half_even h10
  have hrq : (a : ℚ) ≤ ((round_half_even (10 * q) : ℤ) : ℚ) := by
    exact_mod_cast hr
  simp only [py_round1]
  linarith

theorem clamp_mem {x mn mx : ℚ} (h : mn ≤ mx) :
    mn ≤ clamp x mn mx ∧ clamp x mn mx ≤ mx :=
  ⟨le_max_left _ _, max_le h (min_le_left _ _)⟩

theorem round1_clamp_mem (x : ℚ) {mn mx : ℚ} (hmn : isTenth mn)
    (hmx : isTenth mx) (h : mn ≤ mx) :
    mn ≤ py_round1 (clamp x mn mx) ∧ py_round1 (clamp x mn mx) ≤ mx := by
  obtain ⟨a, rfl⟩ := hmn
  obtain ⟨b, rfl⟩ := hmx
  obtain ⟨h1, h2⟩ := clamp_mem (x := x) h
  exact ⟨le_py_round1 h1, py_round1_le h2⟩

theorem inBand_mk {s : BaseScenario} (hb : tenthBounds s) (t h : ℚ)
    {v : SensorValue}
    (hT : v.temperature = py_round1 (clamp t s.temp_min s.temp_max))
    (hH : v.humidity = py_round1 (clamp h s.hum_min s.hum_max)) :
    inBand s v := by
  obtain ⟨hmn, hmx, hle, hhn, hhx, hhle⟩ := hb
  obtain ⟨t1, t2⟩ := round1_clamp_mem t hmn hmx hle
  obtain ⟨h1, h2⟩ := round1_clamp_mem h hhn hhx hhle
  exact ⟨hT ▸ t1, hT ▸ t2, hH ▸ h1, hH ▸ h2⟩

theorem lookup_eq_none_of_not_mem_keys {α β : Type} [BEq α] [LawfulBEq α]
    (a : α) : ∀ l : List (α × β), a ∉ l.map Prod.fst → List.lookup a l = none
  | [], _ => rfl
  | (k, v) :: t, h => by
    simp only [List.map_cons, List.mem_cons, not_or] at h
    have hk : (a == k) = false := beq_eq_false_iff_ne.mpr h.1
    simp only [List.lookup, hk]
    exact lookup_eq_none_of_not_mem_keys a t h.2

/-! ## Claims -/

/-- C1: `_calculate_status` agrees everywhere with the spec's flattened-OR
classifier (alarm beyond the alarm deltas; else warning if beyond the
warning deltas or out of the `[min, max]` band; else normal), and at
`min=-10, max=40, warning_delta=3, alarm_delta=5` the values 39, 41, 44,
46, -16 classify as normal, warning, warning, alarm, alarm. -/
theorem calculate_status_spec :
    (∀ value limit_min limit_max warning_delta alarm_delta : ℚ,
      calculate_status value limit_min limit_max warning_delta alarm_delta =
        spec_classify value limit_min limit_max warning_delta alarm_delta) ∧
    calculate_status 39 (-10) 40 3 5 = "normal" ∧
    calculate_status 41 (-10) 40 3 5 = "warning" ∧
    calculate_status 44 (-10) 40 3 5 = "warning" ∧
    calculate_status 46 (-10) 40 3 5 = "alarm" ∧
    calculate_status (-16) (-10) 40 3 5 = "alarm" := by
  refine ⟨?_, by norm_num [calculate_status], by norm_num [calculate_status],
    by norm_num [calculate_status], by norm_num [calculate_status],
    by norm_num [calculate_status]⟩
  intro v mn mx wd ad
  simp only [calculate_status, spec_classify]
  split_ifs <;> first | rfl | tauto

/-- C3: `_get_combined_status` agrees everywhere with the spec's combine
(alarm if either is alarm; else warning if either is warning; else
normal); any alarm argument forces alarm; `combine(normal,normal)=normal`,
`combine(warning,normal)=warning`; and no pair of inputs ever yields
`"offline"`. -/
theorem get_combined_status_spec :
    (∀ t h : String, get_combined_status t h = spec_combine t h) ∧
    (∀ h : String, get_combined_status "alarm" h = "alarm") ∧
    (∀ t : String, get_combined_status t "alarm" = "alarm") ∧
    get_combined_status "normal" "normal" = "normal" ∧
    get_combined_status "warning" "normal" = "warning" ∧
    (∀ t h : String, get_combined_status t h ≠ "offline") := by
  refine ⟨fun t h => rfl, ?_, ?_, by decide, by decide, ?_⟩
  · intro h
    simp [get_combined_status]
  · intro t
    simp [get_combined_status]
  · intro t h
    unfold get_combined_status
    split_ifs <;> decide

/-- C7: `get_scenario` maps any name absent from the `SCENARIOS` registry
to the `NormalScenario` class (the class `get_scenario "normal"` yields),
and maps every registered name to its registered class. -/
theorem get_scenario_spec :
    (∀ name : String, name ∉ SCENARIOS.map Prod.fst →
      get_scenario name = ScenarioClass.NormalCls) ∧
    get_scenario "normal" = ScenarioClass.NormalCls ∧
    (∀ p ∈ SCENARIOS, get_scenario p.1 = p.2) := by
  refine ⟨?_, by decide, by decide⟩
  intro name h
  unfold get_scenario
  rw [lookup_eq_none_of_not_mem_keys name SCENARIOS h]
  rfl

/-- C7 witness: the unknown name `"not_a_real_name"` falls back to the
`NormalScenario` class. -/
theorem get_scenario_spec_witness :
    "not_a_real_name" ∉ SCENARIOS.map Prod.fst ∧
    get_scenario "not_a_real_name" = ScenarioClass.NormalCls :=
  ⟨by decide, get_scenario_spec.1 "not_a_real_name" (by decide)⟩

/-- C8: every missing `limits` key falls back to its documented default
(`temp` -10/40/3/5, `hum` 20/80/5/10): classification through a partial
dict equals classification through the default-filled dict, the empty dict
fills to exactly the documented defaults, and `get_value` of every
scenario gives identical results for a partial dict and its default-filled
completion (in particular no scenario can fail on a missing key). -/
theorem limits_default_filling :
    (∀ (l : Limits) (v : ℚ),
      l.tempStatus v = (fillLimits l).tempStatus v ∧
      l.humStatus v = (fillLimits l).humStatus v) ∧
    fillLimits {} =
      { temp_min := some (-10), temp_max := some 40,
        temp_warning_delta := some 3, temp_alarm_delta := some 5,
        hum_min := some 20, hum_max := some 80,
        hum_warning_delta := some 5, hum_alarm_delta := some 10 } ∧
    (∀ (s : NormalScenario) (sid : ℤ) (l : Limits) (dt dh : ℚ),
      s.get_value sid l dt dh = s.get_value sid (fillLimits l) dt dh) ∧
    (∀ (s : IntermittentScenario) (sid : ℤ) (l : Limits) (r dt dh : ℚ),
      s.get_value sid l r dt dh = s.get_value sid (fillLimits l) r dt dh) ∧
    (∀ (s : PartialOfflineScenario) (sid : ℤ) (l : Limits) (dt dh : ℚ),
      s.get_value sid l dt dh = s.get_value sid (fillLimits l) dt dh) ∧
    (∀ (s : DriftUpScenario) (sid : ℤ) (l : Limits) (dt dh : ℚ),
      s.get_value sid l dt dh = s.get_value sid (fillLimits l) dt dh) ∧
    (∀ (s : SensorFailureScenario) (sid : ℤ) (l : Limits)
      (r1 r2 gt gh dt dh : ℚ),
      s.get_value sid l r1 r2 gt gh dt dh =
        s.get_value sid (fillLimits l) r1 r2 gt gh dt dh) ∧
    (∀ (s : DriftDownScenario) (sid : ℤ) (l : Limits) (dt dh : ℚ),
      s.get_value sid l dt dh = s.get_value sid (fillLimits l) dt dh) ∧
    (∀ (s : SineScenario) (sid : ℤ) (l : Limits) (sv dt dh : ℚ),
      s.get_value sid l sv dt dh = s.get_value sid (fillLimits l) sv dt dh) ∧
    (∀ (s : DailyCycleScenario) (sid : ℤ) (l : Limits) (df dt dh : ℚ),
      s.get_value sid l df dt dh = s.get_value sid (fillLimits l) df dt dh) ∧
    (∀ (s : HVACControlScenario) (sid : ℤ) (l : Limits) (dstep dt dh : ℚ),
      s.get_value sid l dstep dt dh =
        s.get_value sid (fillLimits l) dstep dt dh) ∧
    (∀ (s : DoorOpenScenario) (sid : ℤ) (l : Limits) (r : ℚ) (tdraw : ℤ)
      (dt dh : ℚ),
      s.get_value sid l r tdraw dt dh =
        s.get_value sid (fillLimits l) r tdraw dt dh) ∧
    (∀ (s : TimeoutScenario) (sid : ℤ) (l : Limits) (r dt dh : ℚ),
      s.get_value sid l r dt dh = s.get_value sid (fillLimits l) r dt dh) ∧
    (∀ (s : CRCErrorScenario) (sid : ℤ) (l : Limits) (r dt dh : ℚ),
      s.get_value sid l r dt dh = s.get_value sid (fillLimits l) r dt dh) ∧
    (∀ (s : PowerOutageScenario) (sid : ℤ) (l : Limits) (r : ℚ) (tdraw : ℤ)
      (dt dh : ℚ),
      s.get_value sid l r tdraw dt dh =
        s.get_value sid (fillLimits l) r tdraw dt dh) ∧
    (∀ (s : OfflineScenario) (sid : ℤ) (l : Limits),
      s.get_value sid l = s.get_value sid (fillLimits l)) :=
  ⟨fun _ _ => ⟨rfl, rfl⟩, rfl, fun _ _ _ _ _ => rfl, fun _ _ _ _ _ _ => rfl,
    fun _ _ _ _ _ => rfl, fun _ _ _ _ _ => rfl,
    fun _ _ _ _ _ _ _ _ _ => rfl, fun _ _ _ _ _ => rfl,
    fun _ _ _ _ _ _ => rfl, fun _ _ _ _ _ _ => rfl,
    fun _ _ _ _ _ _ => rfl, fun _ _ _ _ _ _ _ => rfl,
    fun _ _ _ _ _ _ => rfl, fun _ _ _ _ _ _ => rfl,
    fun _ _ _ _ _ _ _ => rfl, fun _ _ _ => rfl⟩

/-- C4: every non-fault generation path clamps the raw value to the
construction `[min, max]` band, then rounds to one decimal, and computes
both statuses from the *returned rounded* value (spelled out structurally
for `NormalScenario` and stated for every other classifying scenario's
non-fault path); concretely, a raw temperature of 40.04 is returned as
40.0 and classifies as `"normal"` under the default `temp_max = 40`,
while the pre-rounding 40.04 would classify as `"warning"`. -/
theorem round_before_classify :
    (∀ (s : NormalScenario) (sid : ℤ) (l : Limits) (dt dh : ℚ),
      (s.get_value sid l dt dh).temperature =
        py_round1 (clamp (s.temp_base + ((sid : ℚ) - 1) * 0.3 + dt)
          s.temp_min s.temp_max) ∧
      (s.get_value sid l dt dh).humidity =
        py_round1 (clamp (s.hum_base + dh) s.hum_min s.hum_max) ∧
      (s.get_value sid l dt dh).temp_status =
        l.tempStatus (s.get_value sid l dt dh).temperature ∧
      (s.get_value sid l dt dh).hum_status =
        l.humStatus (s.get_value sid l dt dh).humidity) ∧
    (∀ (s : IntermittentScenario) (sid : ℤ) (l : Limits) (r dt dh : ℚ),
      ¬ r < s.failure_rate →
      (s.get_value sid l r dt dh).temp_status =
        l.tempStatus (s.get_value sid l r dt dh).temperature ∧
      (s.get_value sid l r dt dh).hum_status =
        l.humStatus (s.get_value sid l r dt dh).humidity) ∧
    (∀ (s : PartialOfflineScenario) (sid : ℤ) (l : Limits) (dt dh : ℚ),
      ¬ (sid ∈ s.offline_set ∨ sid ∈ s.offline_sensors) →
      (s.get_value sid l dt dh).temp_status =
        l.tempStatus (s.get_value sid l dt dh).temperature ∧
      (s.get_value sid l dt dh).hum_status =
        l.humStatus (s.get_value sid l dt dh).humidity) ∧
    (∀ (s : SensorFailureScenario) (sid : ℤ) (l : Limits)
      (r1 r2 gt gh dt dh : ℚ),
      sid ∉ s.failed_sensors → ¬ r1 < s.failure_rate →
      (s.get_value sid l r1 r2 gt gh dt dh).1.temp_status =
        l.tempStatus (s.get_value sid l r1 r2 gt gh dt dh).1.temperature ∧
      (s.get_value sid l r1 r2 gt gh dt dh).1.hum_status =
        l.humStatus (s.get_value sid l r1 r2 gt gh dt dh).1.humidity) ∧
    (∀ (s : DailyCycleScenario) (sid : ℤ) (l : Limits) (df dt dh : ℚ),
      (s.get_value sid l df dt dh).temp_status =
        l.tempStatus (s.get_value sid l df dt dh).temperature ∧
      (s.get_value sid l df dt dh).hum_status =
        l.humStatus (s.get_value sid l df dt dh).humidity) ∧
    (∀ (s : HVACControlScenario) (sid : ℤ) (l : Limits) (dstep dt dh : ℚ),
      (s.get_value sid l dstep dt dh).1.temp_status =
        l.tempStatus (s.get_value sid l dstep dt dh).1.temperature ∧
      (s.get_value sid l dstep dt dh).1.hum_status =
        l.humStatus (s.get_value sid l dstep dt dh).1.humidity) ∧
    (∀ (s : DoorOpenScenario) (sid : ℤ) (l : Limits) (r : ℚ) (tdraw : ℤ)
      (dt dh : ℚ),
      (s.get_value sid l r tdraw dt dh).1.temp_status =
        l.tempStatus (s.get_value sid l r tdraw dt dh).1.temperature ∧
      (s.get_value sid l r tdraw dt dh).1.hum_status =
        l.humStatus (s.get_value sid l r tdraw dt dh).1.humidity) ∧
    (∀ (s : DriftUpScenario) (sid : ℤ) (l : Limits) (dt dh : ℚ),
      (s.get_value sid l dt dh).1.temp_status =
        l.tempStatus (s.get_value sid l dt dh).1.temperature ∧
      (s.get_value sid l dt dh).1.hum_status =
        l.humStatus (s.get_value sid l dt dh).1.humidity) ∧
    (∀ (s : DriftDownScenario) (sid : ℤ) (l : Limits) (dt dh : ℚ),
      (s.get_value sid l dt dh).1.temp_status =
        l.tempStatus (s.get_value sid l dt dh).1.temperature ∧
      (s.get_value sid l dt dh).1.hum_status =
        l.humStatus (s.get_value sid l dt dh).1.humidity) ∧
    (∀ (s : SineScenario) (sid : ℤ) (l : Limits) (sv dt dh : ℚ),
      (s.get_value sid l sv dt dh).1.temp_status =
        l.tempStatus (s.get_value sid l sv dt dh).1.temperature ∧
      (s.get_value sid l sv dt dh).1.hum_status =
        l.humStatus (s.get_value sid l sv dt dh).1.humidity) ∧
    (NormalScenario.get_value { temp_base := 40.04, temp_variation := 0 }
      1 {} 0 0).temperature = 40 ∧
    (NormalScenario.get_value { temp_base := 40.04, temp_variation := 0 }
      1 {} 0 0).temp_status = "normal" ∧
    calculate_status 40.04 (-10) 40 3 5 = "warning" := by
  refine ⟨fun s sid l dt dh => ⟨rfl, rfl, rfl, rfl⟩, ?_, ?_, ?_,
    fun s sid l df dt dh => ⟨rfl, rfl⟩,
    fun s sid l dstep dt dh => ⟨rfl, rfl⟩,
    fun s sid l r tdraw dt dh => ⟨rfl, rfl⟩,
    fun s sid l dt dh => ⟨rfl, rfl⟩,
    fun s sid l dt dh => ⟨rfl, rfl⟩,
    fun s sid l sv dt dh => ⟨rfl, rfl⟩,
    ?_, ?_, by norm_num [calculate_status]⟩
  · intro s sid l r dt dh hr
    simp only [IntermittentScenario.get_value, if_neg hr]
    constructor <;> trivial
  · intro s sid l dt dh hmem
    simp only [PartialOfflineScenario.get_value, if_neg hmem]
    constructor <;> trivial
  · intro s sid l r1 r2 gt gh dt dh hmem hr1
    have htrig : ¬ (sid ∉ s.failed_sensors ∧ r1 < s.failure_rate) :=
      fun hc => hr1 hc.2
    simp only [SensorFailureScenario.get_value, if_neg htrig, if_neg hmem]
    constructor <;> trivial
  · norm_num [NormalScenario.get_value, clamp, py_round1, round_half_even]
  · norm_num [NormalScenario.get_value, clamp, py_round1, round_half_even,
      Limits.tempStatus, calculate_status]

/-- C4 witness: with the default `failure_rate = 0.2`, a fault draw of
1/2 does not trigger and `IntermittentScenario`'s temperature status is
the classification of the returned (rounded) temperature. -/
theorem round_before_classify_witness :
    (¬ (1/2 : ℚ) < ({} : IntermittentScenario).failure_rate) ∧
    (IntermittentScenario.get_value {} 1 {} (1/2) 0 0).temp_status =
      Limits.tempStatus {}
        (IntermittentScenario.get_value {} 1 {} (1/2) 0 0).temperature :=
  ⟨by norm_num,
    (round_before_classify.2.1 {} 1 {} (1/2) 0 0 (by norm_num)).1⟩

/-- C5: whenever the fault draw does not trigger, `TimeoutScenario`,
`CRCErrorScenario` and `PowerOutageScenario` return a reading whose
temp/hum/combined statuses are all the literal `"normal"` for every
limits dict and every generated value, and their results never depend on
the limits dict at all. -/
theorem forced_normal_status :
    (∀ (s : TimeoutScenario) (sid : ℤ) (l : Limits) (r dt dh : ℚ),
      ¬ r < s.timeout_rate →
      (s.get_value sid l r dt dh).temp_status = "normal" ∧
      (s.get_value sid l r dt dh).hum_status = "normal" ∧
      (s.get_value sid l r dt dh).combined_status = "normal") ∧
    (∀ (s : TimeoutScenario) (sid : ℤ) (l1 l2 : Limits) (r dt dh : ℚ),
      s.get_value sid l1 r dt dh = s.get_value sid l2 r dt dh) ∧
    (∀ (s : CRCErrorScenario) (sid : ℤ) (l : Limits) (r dt dh : ℚ),
      ¬ r < s.crc_error_rate →
      (s.get_value sid l r dt dh).temp_status = "normal" ∧
      (s.get_value sid l r dt dh).hum_status = "normal" ∧
      (s.get_value sid l r dt dh).combined_status = "normal") ∧
    (∀ (s : CRCErrorScenario) (sid : ℤ) (l1 l2 : Limits) (r dt dh : ℚ),
      s.get_value sid l1 r dt dh = s.get_value sid l2 r dt dh) ∧
    (∀ (s : PowerOutageScenario) (sid : ℤ) (l : Limits) (r : ℚ)
      (tdraw : ℤ) (dt dh : ℚ),
      s.power_off = false → ¬ r < s.outage_probability →
      ((s.get_value sid l r tdraw dt dh).1.temp_status = "normal" ∧
       (s.get_value sid l r tdraw dt dh).1.hum_status = "normal" ∧
       (s.get_value sid l r tdraw dt dh).1.combined_status = "normal")) ∧
    (∀ (s : PowerOutageScenario) (sid : ℤ) (l1 l2 : Limits) (r : ℚ)
      (tdraw : ℤ) (dt dh : ℚ),
      s.get_value sid l1 r tdraw dt dh = s.get_value sid l2 r tdraw dt dh) := by
  refine ⟨?_, fun _ _ _ _ _ _ _ => rfl, ?_, fun _ _ _ _ _ _ _ => rfl, ?_,
    fun _ _ _ _ _ _ _ _ => rfl⟩
  · intro s sid l r dt dh hr
    simp [TimeoutScenario.get_value, hr]
  · intro s sid l r dt dh hr
    simp [CRCErrorScenario.get_value, hr]
  · intro s sid l r tdraw dt dh hoff hr
    simp [PowerOutageScenario.get_value, hoff, hr]

/-- C5 witness: with the default rates, a fault draw of 1/2 does not
trigger in any of the three scenarios and the returned statuses are
`"normal"`. -/
theorem forced_normal_status_witness :
    (¬ (1/2 : ℚ) < ({} : TimeoutScenario).timeout_rate) ∧
    (¬ (1/2 : ℚ) < ({} : CRCErrorScenario).crc_error_rate) ∧
    ({} : PowerOutageScenario).power_off = false ∧
    (¬ (1/2 : ℚ) < ({} : PowerOutageScenario).outage_probability) ∧
    (TimeoutScenario.get_value {} 1 {} (1/2) 0 0).temp_status = "normal" ∧
    (CRCErrorScenario.get_value {} 1 {} (1/2) 0 0).hum_status = "normal" ∧
    (PowerOutageScenario.get_value {} 1 {} (1/2) 17 0 0).1.combined_status =
      "normal" :=
  ⟨by norm_num, by norm_num, rfl, by norm_num,
    (forced_normal_status.1 {} 1 {} (1/2) 0 0 (by norm_num)).1,
    (forced_normal_status.2.2.1 {} 1 {} (1/2) 0 0 (by norm_num)).2.1,
    (forced_normal_status.2.2.2.2.1 {} 1 {} (1/2) 17 0 0 rfl
      (by norm_num)).2.2⟩

/-- C2 counterexample: the clamp invariant fails as stated.  With
construction parameters `temp_base = 30` and `temp_max = 22.26`
(= 1113/50), sensor 1 and zero noise draws, `NormalScenario.get_value`
clamps the raw value to 22.26 but then rounds it to 22.3, so the returned
temperature exceeds the configured `temp_max`. -/
theorem clamp_invariant_counterexample :
    ¬ ((NormalScenario.get_value { temp_base := 30, temp_max := 1113/50 }
        1 {} 0 0).temperature ≤
      ({ temp_base := 30, temp_max := 1113/50 } : NormalScenario).temp_max) := by
  norm_num [NormalScenario.get_value, clamp, py_round1, round_half_even,
    Limits.tempStatus, Limits.humStatus, calculate_status]

/-- C2 (amended): for every scenario's non-fault/non-offline generation
path and every random draw, the returned temperature and humidity lie in
the configured `[temp_min, temp_max]` / `[hum_min, hum_max]` bands,
provided those bounds are integer multiples of 0.1 with min ≤ max (true
of the source defaults `-40/85` and `0/100`); without that alignment the
final one-decimal rounding can push the value past the bound. -/
theorem scenarios_clamp_invariant :
    (∀ (s : NormalScenario) (sid : ℤ) (l : Limits) (dt dh : ℚ),
      tenthBounds s.toBaseScenario →
      inBand s.toBaseScenario (s.get_value sid l dt dh)) ∧
    (∀ (s : IntermittentScenario) (sid : ℤ) (l : Limits) (r dt dh : ℚ),
      tenthBounds s.toBaseScenario → ¬ r < s.failure_rate →
      inBand s.toBaseScenario (s.get_value sid l r dt dh)) ∧
    (∀ (s : TimeoutScenario) (sid : ℤ) (l : Limits) (r dt dh : ℚ),
      tenthBounds s.toBaseScenario → ¬ r < s.timeout_rate →
      inBand s.toBaseScenario (s.get_value sid l r dt dh)) ∧
    (∀ (s : CRCErrorScenario) (sid : ℤ) (l : Limits) (r dt dh : ℚ),
      tenthBounds s.toBaseScenario → ¬ r < s.crc_error_rate →
      inBand s.toBaseScenario (s.get_value sid l r dt dh)) ∧
    (∀ (s : PartialOfflineScenario) (sid : ℤ) (l : Limits) (dt dh : ℚ),
      tenthBounds s.toBaseScenario →
      ¬ (sid ∈ s.offline_set ∨ sid ∈ s.offline_sensors) →
      inBand s.toBaseScenario (s.get_value sid l dt dh)) ∧
    (∀ (s : DailyCycleScenario) (sid : ℤ) (l : Limits) (df dt dh : ℚ),
      tenthBounds s.toBaseScenario →
      inBand s.toBaseScenario (s.get_value sid l df dt dh)) ∧
    (∀ (s : HVACControlScenario) (sid : ℤ) (l : Limits) (dstep dt dh : ℚ),
      tenthBounds s.toBaseScenario →
      inBand s.toBaseScenario (s.get_value sid l dstep dt dh).1) ∧
    (∀ (s : DoorOpenScenario) (sid : ℤ) (l : Limits) (r : ℚ) (tdraw : ℤ)
      (dt dh : ℚ),
      tenthBounds s.toBaseScenario →
      inBand s.toBaseScenario (s.get_value sid l r tdraw dt dh).1) ∧
    (∀ (s : PowerOutageScenario) (sid : ℤ) (l : Limits) (r : ℚ) (tdraw : ℤ)
      (dt dh : ℚ),
      tenthBounds s.toBaseScenario → s.power_off = false →
      ¬ r < s.outage_probability →
      inBand s.toBaseScenario (s.get_value sid l r tdraw dt dh).1) ∧
    (∀ (s : SensorFailureScenario) (sid : ℤ) (l : Limits)
      (r1 r2 gt gh dt dh : ℚ),
      tenthBounds s.toBaseScenario → sid ∉ s.failed_sensors →
      ¬ r1 < s.failure_rate →
      inBand s.toBaseScenario (s.get_value sid l r1 r2 gt gh dt dh).1) ∧
    (∀ (s : DriftUpScenario) (sid : ℤ) (l : Limits) (dt dh : ℚ),
      tenthBounds s.toBaseScenario →
      inBand s.toBaseScenario (s.get_value sid l dt dh).1) ∧
    (∀ (s : DriftDownScenario) (sid : ℤ) (l : Limits) (dt dh : ℚ),
      tenthBounds s.toBaseScenario →
      inBand s.toBaseScenario (s.get_value sid l dt dh).1) ∧
    (∀ (s : SineScenario) (sid : ℤ) (l : Limits) (sv dt dh : ℚ),
      tenthBounds s.toBaseScenario →
      inBand s.toBaseScenario (s.get_value sid l sv dt dh).1) := by
  refine ⟨fun s sid l dt dh hb => inBand_mk hb _ _ rfl rfl,
    ?_, ?_, ?_, ?_,
    fun s sid l df dt dh hb => inBand_mk hb _ _ rfl rfl,
    fun s sid l dstep dt dh hb => inBand_mk hb _ _ rfl rfl,
    fun s sid l r tdraw dt dh hb => inBand_mk hb _ _ rfl rfl,
    ?_, ?_,
    fun s sid l dt dh hb => inBand_mk hb _ _ rfl rfl,
    fun s sid l dt dh hb => inBand_mk hb _ _ rfl rfl,
    fun s sid l sv dt dh hb => inBand_mk hb _ _ rfl rfl⟩
  · intro s sid l r dt dh hb hr
    simp only [IntermittentScenario.get_value, if_neg hr]
    exact inBand_mk hb _ _ rfl rfl
  · intro s sid l r dt dh hb hr
    simp only [TimeoutScenario.get_value, if_neg hr]
    exact inBand_mk hb _ _ rfl rfl
  · intro s sid l r dt dh hb hr
    simp only [CRCErrorScenario.get_value, if_neg hr]
    exact inBand_mk hb _ _ rfl rfl
  · intro s sid l dt dh hb hmem
    simp only [PartialOfflineScenario.get_value, if_neg hmem]
    exact inBand_mk hb _ _ rfl rfl
  · intro s sid l r tdraw dt dh hb hoff hr
    simp [PowerOutageScenario.get_value, hoff, hr]
    exact inBand_mk hb _ _ rfl rfl
  · intro s sid l r1 r2 gt gh dt dh hb hmem hr1
    have htrig : ¬ (sid ∉ s.failed_sensors ∧ r1 < s.failure_rate) :=
      fun hc => hr1 hc.2
    simp only [SensorFailureScenario.get_value, if_neg htrig, if_neg hmem]
    exact inBand_mk hb _ _ rfl rfl

/-- C2 witness: the default construction bounds are one-decimal aligned
and a `NormalScenario` value generated with large noise draws stays inside
them. -/
theorem scenarios_clamp_invariant_witness :
    tenthBounds ({} : NormalScenario).toBaseScenario ∧
    inBand ({} : NormalScenario).toBaseScenario
      (NormalScenario.get_value {} 1 {} 1000 (-1000)) :=
  ⟨⟨⟨-400, by norm_num⟩, ⟨850, by norm_num⟩, by norm_num, ⟨0, by norm_num⟩,
      ⟨1000, by norm_num⟩, by norm_num⟩,
    scenarios_clamp_invariant.1 {} 1 {} 1000 (-1000)
      ⟨⟨-400, by norm_num⟩, ⟨850, by norm_num⟩, by norm_num, ⟨0, by norm_num⟩,
        ⟨1000, by norm_num⟩, by norm_num⟩⟩

theorem DriftUpScenario.get_value_offset (self : DriftUpScenario)
    (sid : ℤ) (l : Limits) (dt dh : ℚ) :
    (self.get_value sid l dt dh).2 =
      { self with current_offset := self.current_offset + self.drift_rate } :=
  rfl

theorem DriftUpScenario.run_offset (self : DriftUpScenario) :
    ∀ calls : List DriftCall,
      (self.run calls).current_offset =
        self.current_offset + (calls.length : ℚ) * self.drift_rate ∧
      (self.run calls).drift_rate = self.drift_rate
  | [] => by simp [DriftUpScenario.run]
  | c :: cs => by
    have ih := DriftUpScenario.run_offset
      ((self.get_value c.sensor_id c.limits c.dt c.dh).2) cs
    rw [DriftUpScenario.get_value_offset] at ih
    simp only [DriftUpScenario.run, DriftUpScenario.get_value_offset,
      List.length_cons] at ih ⊢
    refine ⟨?_, ih.2⟩
    rw [ih.1]
    push_cast
    ring

/-- C9: each `DriftUpScenario.get_value` call adds exactly `drift_rate` to
the internal offset (so with `drift_rate = 0.1` and a fresh offset, N
calls leave the offset at `N * 0.1`), the offset sequence is
non-decreasing whenever the rate is non-negative, and the updated offset
is added to the temperature base while the humidity moves opposite at 0.5
times the offset. -/
theorem driftup_monotone_offset :
    (∀ (self : DriftUpScenario) (sid : ℤ) (l : Limits) (dt dh : ℚ),
      ((self.get_value sid l dt dh).2).current_offset =
        self.current_offset + self.drift_rate ∧
      ((self.get_value sid l dt dh).2).drift_rate = self.drift_rate ∧
      (self.get_value sid l dt dh).1.temperature =
        py_round1 (clamp
          (self.temp_base + ((sid : ℚ) - 1) * 0.3 +
            (self.current_offset + self.drift_rate) + dt)
          self.temp_min self.temp_max) ∧
      (self.get_value sid l dt dh).1.humidity =
        py_round1 (clamp
          (self.hum_base - (self.current_offset + self.drift_rate) * 0.5 + dh)
          self.hum_min self.hum_max)) ∧
    (∀ (self : DriftUpScenario) (sid : ℤ) (l : Limits) (dt dh : ℚ),
      0 ≤ self.drift_rate →
      self.current_offset ≤ ((self.get_value sid l dt dh).2).current_offset) ∧
    (∀ (self : DriftUpScenario) (calls : List DriftCall),
      self.drift_rate = 0.1 → self.current_offset = 0 →
      (self.run calls).current_offset = (calls.length : ℚ) * 0.1) := by
  refine ⟨fun self sid l dt dh => ⟨rfl, rfl, rfl, rfl⟩, ?_, ?_⟩
  · intro self sid l dt dh hrate
    rw [DriftUpScenario.get_value_offset]
    simp only []
    linarith
  · intro self calls hrate hoff
    rw [(DriftUpScenario.run_offset self calls).1, hrate, hoff, zero_add]

/-- C9 witness: with the default `drift_rate = 0.1` and fresh offset,
three `get_value` calls leave the internal offset at `3 * 0.1`, and one
call does not decrease it. -/
theorem driftup_monotone_offset_witness :
    ({} : DriftUpScenario).drift_rate = 0.1 ∧
    ({} : DriftUpScenario).current_offset = 0 ∧
    (0 : ℚ) ≤ ({} : DriftUpScenario).drift_rate ∧
    (DriftUpScenario.run {} [⟨1, {}, 0, 0⟩, ⟨2, {}, 1, 1⟩, ⟨1, {}, -1, 2⟩]
      ).current_offset = (3 : ℚ) * 0.1 ∧
    ({} : DriftUpScenario).current_offset ≤
      ((DriftUpScenario.get_value {} 1 {} 0 0).2).current_offset :=
  ⟨rfl, by norm_num, by norm_num,
    by
      have h := driftup_monotone_offset.2.2 {}
        [⟨1, {}, 0, 0⟩, ⟨2, {}, 1, 1⟩, ⟨1, {}, -1, 2⟩] rfl (by norm_num)
      simpa using h,
    driftup_monotone_offset.2.1 {} 1 {} 0 0 (by norm_num)⟩

theorem SensorFailureScenario.get_value_failed (self : SensorFailureScenario)
    (sid : ℤ) (l : Limits) (r1 r2 gt gh dt dh : ℚ) :
    ((self.get_value sid l r1 r2 gt gh dt dh).2) =
      { self with failed_sensors :=
          if sid ∉ self.failed_sensors ∧ r1 < self.failure_rate then
            insert sid self.failed_sensors
          else self.failed_sensors } := by
  simp only [SensorFailureScenario.get_value]
  split_ifs <;> rfl

theorem SensorFailureScenario.failed_mono (self : SensorFailureScenario)
    (sid : ℤ) (l : Limits) (r1 r2 gt gh dt dh : ℚ) :
    self.failed_sensors ⊆
      ((self.get_value sid l r1 r2 gt gh dt dh).2).failed_sensors := by
  rw [SensorFailureScenario.get_value_failed]
  by_cases h : sid ∉ self.failed_sensors ∧ r1 < self.failure_rate
  · rw [if_pos h]
    exact Finset.subset_insert _ _
  · rw [if_neg h]

theorem SensorFailureScenario.get_value_fst_of_mem
    (self : SensorFailureScenario) (sid : ℤ) (l : Limits)
    (r1 r2 gt gh dt dh : ℚ) (h : sid ∈ self.failed_sensors) :
    (self.get_value sid l r1 r2 gt gh dt dh).1 =
      if r2 < 0.5 then offlineValue "sensor_failure"
      else { temperature := py_round1 gt, humidity := py_round1 gh,
             temp_status := "alarm", hum_status := "alarm",
             combined_status := "alarm", modbus_error := some "invalid_data" } := by
  have htrig : ¬ (sid ∉ self.failed_sensors ∧ r1 < self.failure_rate) :=
    fun hc => hc.1 h
  simp only [SensorFailureScenario.get_value, if_neg htrig, if_pos h]
  split_ifs <;> rfl

theorem SensorFailureScenario.output_of_mem (self : SensorFailureScenario)
    (sid : ℤ) (l : Limits) (r1 r2 gt gh dt dh : ℚ)
    (h : sid ∈ self.failed_sensors) :
    isFailedOutput ((self.get_value sid l r1 r2 gt gh dt dh).1) := by
  rw [SensorFailureScenario.get_value_fst_of_mem self sid l r1 r2 gt gh dt dh h]
  by_cases h2 : r2 < 0.5
  · rw [if_pos h2]
    exact Or.inl rfl
  · rw [if_neg h2]
    exact Or.inr ⟨rfl, rfl, rfl, rfl⟩

theorem SensorFailureScenario.run_permanent (id : ℤ) :
    ∀ (calls : List SFCall) (self : SensorFailureScenario),
      id ∈ self.failed_sensors →
      id ∈ ((self.run calls).2).failed_sensors ∧
      ∀ p ∈ calls.zip (self.run calls).1,
        p.1.sensor_id = id → isFailedOutput p.2
  | [], self, h => ⟨h, by simp [SensorFailureScenario.run]⟩
  | c :: cs, self, h => by
    have hmem1 :=
      SensorFailureScenario.failed_mono self c.sensor_id c.limits c.r1 c.r2
        c.gt c.gh c.dt c.dh h
    have ih := SensorFailureScenario.run_permanent id cs _ hmem1
    simp only [SensorFailureScenario.run]
    refine ⟨ih.1, ?_⟩
    intro p hp hpid
    simp only [List.zip_cons_cons, List.mem_cons] at hp
    rcases hp with hp | hp
    · subst hp
      have hm : c.sensor_id ∈ self.failed_sensors := by
        rw [hpid] at *
        exact h
      exact SensorFailureScenario.output_of_mem self c.sensor_id c.limits
        c.r1 c.r2 c.gt c.gh c.dt c.dh hm
    · exact ih.2 p hp hpid

/-- C6: the failed-sensor set of `SensorFailureScenario` only grows; once
a sensor id is in it, every single call for that id returns one of the two
failure outputs (offline/`sensor_failure`, or all-alarm garbage tagged
`invalid_data`), and along every sequence of further calls with arbitrary
draws the id stays failed and every output produced for it is one of
those two shapes — never a normally classified reading. -/
theorem sensor_failure_permanent :
    (∀ (self : SensorFailureScenario) (sid : ℤ) (l : Limits)
      (r1 r2 gt gh dt dh : ℚ),
      self.failed_sensors ⊆
        ((self.get_value sid l r1 r2 gt gh dt dh).2).failed_sensors) ∧
    (∀ (self : SensorFailureScenario) (sid : ℤ) (l : Limits)
      (r1 r2 gt gh dt dh : ℚ), sid ∈ self.failed_sensors →
      isFailedOutput ((self.get_value sid l r1 r2 gt gh dt dh).1)) ∧
    (∀ (self : SensorFailureScenario) (id : ℤ), id ∈ self.failed_sensors →
      ∀ calls : List SFCall,
        id ∈ ((self.run calls).2).failed_sensors ∧
        ∀ p ∈ calls.zip (self.run calls).1,
          p.1.sensor_id = id → isFailedOutput p.2) :=
  ⟨SensorFailureScenario.failed_mono,
    SensorFailureScenario.output_of_mem,
    fun self id h calls => SensorFailureScenario.run_permanent id calls self h⟩

/-- C6 witness: with sensor 3 already failed, a two-call run keeps 3 in
the failed set and each of its outputs is one of the two failure
shapes. -/
theorem sensor_failure_permanent_witness :
    ((3 : ℤ) ∈
      ({ failed_sensors := {3} } : SensorFailureScenario).failed_sensors) ∧
    ((3 : ℤ) ∈ ((SensorFailureScenario.run { failed_sensors := {3} }
        [⟨3, {}, 1, 1, 30, 60, 0, 0⟩, ⟨3, {}, 1, 0, 0, 0, 0, 0⟩]).2
      ).failed_sensors ∧
      ∀ p ∈ ([⟨3, {}, 1, 1, 30, 60, 0, 0⟩, ⟨3, {}, 1, 0, 0, 0, 0, 0⟩] :
          List SFCall).zip
        (SensorFailureScenario.run { failed_sensors := {3} }
          [⟨3, {}, 1, 1, 30, 60, 0, 0⟩, ⟨3, {}, 1, 0, 0, 0, 0, 0⟩]).1,
        p.1.sensor_id = 3 → isFailedOutput p.2) :=
  ⟨by decide,
    sensor_failure_permanent.2.2 { failed_sensors := {3} } 3 (by decide)
      [⟨3, {}, 1, 1, 30, 60, 0, 0⟩, ⟨3, {}, 1, 0, 0, 0, 0, 0⟩]⟩

/-- C10: for a sensor already in the failed set, when the 50/50 draw
selects the garbage branch, `SensorFailureScenario.get_value` returns the
uniform draws from `[-40, 85]` and `[0, 100]` rounded to one decimal
(without clamping to the configured bounds), statuses unconditionally
alarm/alarm/alarm with fault code `invalid_data`; the result ignores the
limits dict, and the returned value can lie inside the default operating
band (e.g. temperature 22) while the status is still alarm. -/
theorem sensor_failure_garbage :
    (∀ (self : SensorFailureScenario) (sid : ℤ) (l : Limits)
      (r1 r2 gt gh dt dh : ℚ),
      sid ∈ self.failed_sensors → ¬ r2 < 0.5 →
      -40 ≤ gt → gt ≤ 85 → 0 ≤ gh → gh ≤ 100 →
      (self.get_value sid l r1 r2 gt gh dt dh).1 =
        { temperature := py_round1 gt, humidity := py_round1 gh,
          temp_status := "alarm", hum_status := "alarm",
          combined_status := "alarm", modbus_error := some "invalid_data" }) ∧
    (∀ (self : SensorFailureScenario) (sid : ℤ) (l1 l2 : Limits)
      (r1 r2 gt gh dt dh : ℚ), sid ∈ self.failed_sensors →
      (self.get_value sid l1 r1 r2 gt gh dt dh).1 =
        (self.get_value sid l2 r1 r2 gt gh dt dh).1) ∧
    ((SensorFailureScenario.get_value { failed_sensors := {1} } 1 {}
        1 1 22 50 0 0).1.temperature = 22 ∧
      ((-10 : ℚ) ≤ 22 ∧ (22 : ℚ) ≤ 40) ∧
      (SensorFailureScenario.get_value { failed_sensors := {1} } 1 {}
        1 1 22 50 0 0).1.combined_status = "alarm") := by
  refine ⟨?_, ?_, ?_, by norm_num, ?_⟩
  · intro self sid l r1 r2 gt gh dt dh h hr2 _ _ _ _
    rw [SensorFailureScenario.get_value_fst_of_mem self sid l r1 r2 gt gh
      dt dh h, if_neg hr2]
  · intro self sid l1 l2 r1 r2 gt gh dt dh h
    rw [SensorFailureScenario.get_value_fst_of_mem self sid l1 r1 r2 gt gh
      dt dh h, SensorFailureScenario.get_value_fst_of_mem self sid l2 r1 r2
      gt gh dt dh h]
  · rw [SensorFailureScenario.get_value_fst_of_mem _ 1 {} 1 1 22 50 0 0
      (by decide), if_neg (by norm_num : ¬ (1 : ℚ) < 0.5)]
    norm_num [py_round1, round_half_even]
  · rw [SensorFailureScenario.get_value_fst_of_mem _ 1 {} 1 1 22 50 0 0
      (by decide), if_neg (by norm_num : ¬ (1 : ℚ) < 0.5)]

/-- C10 witness: sensor 3 failed, garbage draw `r2 = 0.7`, in-range
uniform draws 30 and 60 — the output is the rounded draws with all-alarm
statuses and fault code `invalid_data`. -/
theorem sensor_failure_garbage_witness :
    ((3 : ℤ) ∈
      ({ failed_sensors := {3} } : SensorFailureScenario).failed_sensors) ∧
    (¬ (0.7 : ℚ) < 0.5) ∧
    ((-40 : ℚ) ≤ 30 ∧ (30 : ℚ) ≤ 85 ∧ (0 : ℚ) ≤ 60 ∧ (60 : ℚ) ≤ 100) ∧
    (SensorFailureScenario.get_value { failed_sensors := {3} } 3 {}
        1 0.7 30 60 0 0).1 =
      { temperature := py_round1 30, humidity := py_round1 60,
        temp_status := "alarm", hum_status := "alarm",
        combined_status := "alarm", modbus_error := some "invalid_data" } :=
  ⟨by decide, by norm_num, ⟨by norm_num, by norm_num, by norm_num, by norm_num⟩,
    sensor_failure_garbage.1 { failed_sensors := {3} } 3 {} 1 0.7 30 60 0 0
      (by decide) (by norm_num) (by norm_num) (by norm_num) (by norm_num)
      (by norm_num)⟩
